import Mathlib

/-!
Shallow embedding of the interactive GUI layer of cv-plot-python
(`src/cv_plot/gui/mouse_event.py`, `mouse_adapter.py`, `window.py`).

Conventions of the embedding:
* Python int coordinates and flag words become `Int`; Python tuples become
  products.
* The plot surface ("Axes") is an external collaborator: the calls the
  adapter makes into it (`pan`, `zoom`, `setXLimAuto`, `setYLimAuto`) are
  recorded in an explicit trace instead of being executed, and likewise the
  invocation of the optional user mouse-event handler is recorded.
* Python float arithmetic (`math.pow`) is modelled over `ℝ`.
* The OpenCV host (`cv2`) is an external collaborator as well: host windows
  are a state of named handles, `cv2.getWindowProperty` either returns an
  `Int` or raises `cv2.error`, which is modelled by `Except Unit Int`.
* Stateful methods become explicit state-passing functions returning the new
  state together with the trace and the Python return value.
-/

namespace CvPlot

/-! ### cv2 constants used by the adapter (values of the OpenCV enums) -/

def EVENT_MOUSEMOVE : Int := 0
def EVENT_RBUTTONDOWN : Int := 2
def EVENT_MBUTTONDOWN : Int := 3
def EVENT_RBUTTONDBLCLK : Int := 8
def EVENT_MOUSEWHEEL : Int := 10
def EVENT_FLAG_RBUTTON : Int := 2
def EVENT_FLAG_MBUTTON : Int := 4

/-! ### MouseEvent (`mouse_event.py`)

The Python class also stores the `Axes` reference; since the surface is an
external collaborator (and `MouseAdapter._handle_event` acts on its own
`_axes` field, not on the event's), the reference is not part of the record.
The projection-dependent accessors (`innerPoint`, `pos`) are not needed by
any claim and are omitted with the projection itself. -/

structure MouseEvent where
  renderSize : Int × Int
  event : Int
  x : Int
  y : Int
  flags : Int
deriving DecidableEq

/-- Position in outer rect (raw screen coordinates): `return (self._x, self._y)`. -/
def MouseEvent.outerPoint (e : MouseEvent) : Int × Int := (e.x, e.y)

/-! ### Trace of calls made by the adapter into its collaborators -/

/-- One observable call made while handling a mouse event: a call into the
Axes surface (`pan`, `zoom`, `setXLimAuto`, `setYLimAuto`) or the invocation
of the user-supplied mouse-event handler together with its result. -/
inductive TraceCall where
  | pan (renderSize : Int × Int) (delta : Int × Int)
  | zoom (renderSize : Int × Int) (anchor : Int × Int) (scaleX scaleY : ℝ)
  | setXLimAuto
  | setYLimAuto
  | userHandler (ev : MouseEvent) (result : Bool)

/-- Recognizes the `zoom` trace entries (used to count zoom calls). -/
def TraceCall.isZoom : TraceCall → Bool
  | TraceCall.zoom _ _ _ _ => true
  | _ => false

/-! ### MouseAdapter (`mouse_adapter.py`) -/

/-- Mutable state of `MouseAdapter`: `_pressPosPix`, `_lastPosPix` and the
optional `_mouseEventHandler` (modelled as a pure `MouseEvent → Bool`
function; `None` becomes `none`). The `_axes` reference is externalized into
the trace. -/
structure MouseAdapter where
  pressPosPix : Int × Int
  lastPosPix : Int × Int
  mouseEventHandler : Option (MouseEvent → Bool)

/-- `MouseAdapter.__init__`: `self._pressPosPix = (0,0)`,
`self._lastPosPix = (0,0)`, `self._mouseEventHandler = None`. -/
def MouseAdapter.init : MouseAdapter :=
  { pressPosPix := (0, 0), lastPosPix := (0, 0), mouseEventHandler := none }

/-- `MouseAdapter._handle_event`: the built-in pan/zoom/autoscale behaviour.
Returns the new adapter state, the calls made into the Axes surface, and the
`update` boolean the Python method returns. Python's truthiness test
`if flags & FLAG:` becomes `Int.land flags FLAG ≠ 0`; `flags // 120` is the
floor division `Int.fdiv`; `math.pow(b, e)` is real `b ^ e`. -/
noncomputable def MouseAdapter.handleEvent (a : MouseAdapter) (m : MouseEvent) :
    MouseAdapter × List TraceCall × Bool :=
  let outerPoint := m.outerPoint
  if m.event = EVENT_MBUTTONDOWN ∨ m.event = EVENT_RBUTTONDOWN then
    ({ a with pressPosPix := outerPoint, lastPosPix := outerPoint }, [], true)
  else if m.event = EVENT_MOUSEMOVE then
    let deltaPix : Int × Int :=
      (outerPoint.1 - a.lastPosPix.1, outerPoint.2 - a.lastPosPix.2)
    if Int.land m.flags EVENT_FLAG_MBUTTON ≠ 0 then
      ({ a with lastPosPix := outerPoint },
        [TraceCall.pan m.renderSize deltaPix], true)
    else if Int.land m.flags EVENT_FLAG_RBUTTON ≠ 0 then
      let scaleX : ℝ := (2 : ℝ) ^ (-(deltaPix.1 : ℝ) / 100)
      let scaleY : ℝ := (2 : ℝ) ^ ((deltaPix.2 : ℝ) / 100)
      ({ a with lastPosPix := outerPoint },
        [TraceCall.zoom m.renderSize a.pressPosPix scaleX scaleY], true)
    else
      (a, [], false)
  else if m.event = EVENT_RBUTTONDBLCLK then
    (a, [TraceCall.setXLimAuto, TraceCall.setYLimAuto], true)
  else if m.event = EVENT_MOUSEWHEEL then
    let delta : Int := Int.fdiv m.flags 120
    let scale : ℝ := (1.2 : ℝ) ^ (-(delta : ℝ))
    (a, [TraceCall.zoom m.renderSize outerPoint scale scale], true)
  else
    (a, [], false)

/-- `MouseAdapter.mouseEvent` (the dispatch): runs `_handle_event`, then, if
a user handler is set, invokes it, and returns `update_builtin or
update_user`. The user-handler invocation is recorded after the built-in
calls, mirroring the statement ordering of the Python method. -/
noncomputable def MouseAdapter.mouseEvent (a : MouseAdapter) (m : MouseEvent) :
    MouseAdapter × List TraceCall × Bool :=
  let r := a.handleEvent m
  match r.1.mouseEventHandler with
  | some handler =>
      (r.1, r.2.1 ++ [TraceCall.userHandler m (handler m)], r.2.2 || handler m)
  | none => (r.1, r.2.1, r.2.2)

/-! ### Host windowing toolkit (cv2 highgui), modelled as an external state

A live host window is a pair of a unique handle and its name; `nextId` is
the next fresh handle. `cv2.getWindowProperty` either returns a property
value or raises `cv2.error` (for a fully destroyed window); the outcome is
an `Except Unit Int`. -/

structure Host where
  nextId : Nat
  windows : List (Nat × String)
deriving DecidableEq

/-- Whether a live host window with the given name exists. -/
def Host.hasWindow (h : Host) (name : String) : Bool :=
  h.windows.any (fun w => w.2 = name)

/-- `cv2.getWindowProperty(name, WND_PROP_AUTOSIZE)`: a (non-negative)
property value for a live window, `cv2.error` for a destroyed one. -/
def Host.getWindowProperty (h : Host) (name : String) : Except Unit Int :=
  if h.hasWindow name then Except.ok 0 else Except.error ()

/-- `cv2.destroyWindow(name)`: removes the live host windows of that name. -/
def Host.destroyWindow (h : Host) (name : String) : Host :=
  { h with windows := h.windows.filter (fun w => w.2 ≠ name) }

/-- `cv2.namedWindow(name, ...)`: creates a fresh host window under `name`
(a no-op when one already exists, per highgui semantics). -/
def Host.namedWindow (h : Host) (name : String) : Host :=
  if h.hasWindow name then h
  else { nextId := h.nextId + 1, windows := (h.nextId, name) :: h.windows }

/-! ### Window (`window.py`) -/

/-- A `Window` object as far as liveness queries go: the Python object's
`_windowName` field (the adapter and cached image play no role in the
claims about liveness, registry and teardown). -/
structure Window where
  windowName : String
deriving DecidableEq

/-- Body of `Window.valid` applied to the outcome of the host property
query: `try: return cv2.getWindowProperty(...) >= 0 except cv2.error:
return False`. -/
def validResult : Except Unit Int → Bool
  | Except.ok v => decide (0 ≤ v)
  | Except.error _ => false

/-- `Window.valid`: queries the host for `_windowName` and applies the
try/except body above. -/
def Window.valid (w : Window) (host : Host) : Bool :=
  validResult (host.getWindowProperty w.windowName)

/-! ### The process-wide `_WINDOW_MAP` registry

The Python dict maps a window name to a `Window` object; objects are
represented by an identity token (`Nat`). Dict semantics: at most one entry
per key, assignment replaces. -/

/-- `m.get(k)` on the registry dict. -/
def dictGet (m : List (String × Nat)) (k : String) : Option Nat :=
  (m.find? (fun p => p.1 = k)).map (fun p => p.2)

/-- `m[k] = v` on the registry dict. -/
def dictSet (m : List (String × Nat)) (k : String) (v : Nat) : List (String × Nat) :=
  (k, v) :: m.filter (fun p => p.1 ≠ k)

/-- `del m[k]` on the registry dict. -/
def dictDel (m : List (String × Nat)) (k : String) : List (String × Nat) :=
  m.filter (fun p => p.1 ≠ k)

/-- The mutable GUI state shared by all windows: the host toolkit state and
the process-wide name-to-window registry `_WINDOW_MAP`. -/
structure GuiState where
  host : Host
  windowMap : List (String × Nat)
deriving DecidableEq

/-- The registry lookup performed by `_cvplot_mouse_callback`:
`_WINDOW_MAP.get(window_name)`; when it yields nothing the callback does
nothing. -/
def callbackLookup (gs : GuiState) (name : String) : Option Nat :=
  dictGet gs.windowMap name

/-- `Window.__init__` as it affects host and registry, for a new object
with identity `objId`: if `self.valid()` then `cv2.destroyWindow(name)`;
`cv2.namedWindow(name, ...)`; then (resize, render, imshow and callback
registration, which touch neither liveness nor the registry) and finally
`_WINDOW_MAP[name] = self`. -/
def windowInit (gs : GuiState) (objId : Nat) (name : String) : GuiState :=
  let h1 := if Window.valid ⟨name⟩ gs.host then gs.host.destroyWindow name else gs.host
  let h2 := h1.namedWindow name
  { host := h2, windowMap := dictSet gs.windowMap name objId }

/-- One observable step of `Window.__del__`. -/
inductive TeardownStep where
  | removeRegistry (name : String)
  | destroyHost (name : String)
deriving DecidableEq

/-- First half of `Window.__del__`: `if self._windowName in _WINDOW_MAP:
del _WINDOW_MAP[self._windowName]`. -/
def delRegistryPhase (gs : GuiState) (name : String) : GuiState × List TeardownStep :=
  if (dictGet gs.windowMap name).isSome then
    ({ gs with windowMap := dictDel gs.windowMap name },
      [TeardownStep.removeRegistry name])
  else (gs, [])

/-- Second half of `Window.__del__`: `if self.valid():
cv2.destroyWindow(self._windowName)`. -/
def delDestroyPhase (gs : GuiState) (name : String) : GuiState × List TeardownStep :=
  if Window.valid ⟨name⟩ gs.host then
    ({ gs with host := gs.host.destroyWindow name }, [TeardownStep.destroyHost name])
  else (gs, [])

/-- `Window.__del__`: the registry phase runs first, the host-destroy phase
runs on the state the registry phase left behind. -/
def windowDel (gs : GuiState) (name : String) : GuiState × List TeardownStep :=
  let r1 := delRegistryPhase gs name
  let r2 := delDestroyPhase r1.1 name
  (r2.1, r1.2 ++ r2.2)

/-! ### `Window.waitKey_static` (the multi-window wait loop)

The loop body polls `cv2.waitKey(1)` and `time.time()`; those host inputs
are modelled as streams indexed by the iteration counter `i` (`keys i`,
`times i`). The per-iteration `window._update_size()` calls touch neither
liveness nor the registry and are not recorded. The Python loop is
unbounded; `fuel` bounds how many iterations are observed, `none` meaning
the loop was still running after `fuel` iterations. -/
def waitKeyLoop (host : Host) (windows : List Window) (delay : Int)
    (keys : Nat → Int) (times : Nat → ℚ) (endTime : ℚ) : Nat → Nat → Option Int
  | _, 0 => none
  | i, fuel + 1 =>
    let key := keys i
    if key ≠ -1 then some key
    else if delay > 0 ∧ times i ≥ endTime then some (-1)
    else if windows.all (fun w => !(w.valid host)) then some (-1)
    else waitKeyLoop host windows delay keys times endTime (i + 1) fuel

/-- `Window.waitKey_static(windows, delay)` observed for `fuel` iterations,
entered at wall-clock time `startTime`:
`end_time = time.time() + delay / 1000.0`, then the loop above. -/
def waitKeyStatic (host : Host) (windows : List Window) (delay : Int)
    (keys : Nat → Int) (times : Nat → ℚ) (startTime : ℚ) (fuel : Nat) : Option Int :=
  waitKeyLoop host windows delay keys times (startTime + (delay : ℚ) / 1000) 0 fuel

/-! ### Concrete inputs used by the witnesses -/

/-- A user handler that always requests a re-render. -/
def handlerTrue : MouseEvent → Bool := fun _ => true

/-- Adapter with a user handler installed (for the dispatch witness). -/
def adapterWithHandler : MouseAdapter :=
  { pressPosPix := (0, 0), lastPosPix := (0, 0), mouseEventHandler := some handlerTrue }

/-- Wheel event with one forward notch encoded in the flags. -/
def wheelEvent120 : MouseEvent :=
  { renderSize := (640, 480), event := EVENT_MOUSEWHEEL, x := 7, y := 8, flags := 120 }

/-- Right-button press at `(200, 150)`. -/
def btnDownR200 : MouseEvent :=
  { renderSize := (640, 480), event := EVENT_RBUTTONDOWN, x := 200, y := 150, flags := 0 }

/-- Adapter state after dispatching the right-button press to a fresh adapter. -/
noncomputable def adapterAfterPress : MouseAdapter :=
  (MouseAdapter.init.mouseEvent btnDownR200).1

/-- Move to `(150, 150)` with the right button held. -/
def moveR150 : MouseEvent :=
  { renderSize := (640, 480), event := EVENT_MOUSEMOVE, x := 150, y := 150,
    flags := EVENT_FLAG_RBUTTON }

/-- Move to `(30, 40)` with the middle button held (pan witness). -/
def moveMid30 : MouseEvent :=
  { renderSize := (640, 480), event := EVENT_MOUSEMOVE, x := 30, y := 40,
    flags := EVENT_FLAG_MBUTTON }

/-- Adapter whose press and last positions are `(10, 10)` (pan witness). -/
def adapterAt10 : MouseAdapter :=
  { pressPosPix := (10, 10), lastPosPix := (10, 10), mouseEventHandler := none }

/-- Wheel event with two backward notches encoded in the flags. -/
def wheelEventNeg240 : MouseEvent :=
  { renderSize := (640, 480), event := EVENT_MOUSEWHEEL, x := 6, y := 6, flags := -240 }

/-- Move to `(5, 5)` with no button flags set. -/
def moveNone5 : MouseEvent :=
  { renderSize := (640, 480), event := EVENT_MOUSEMOVE, x := 5, y := 5, flags := 0 }

/-- Move to `(9, 9)` with the middle button held (amended-claim witness). -/
def moveMid9 : MouseEvent :=
  { renderSize := (640, 480), event := EVENT_MOUSEMOVE, x := 9, y := 9,
    flags := EVENT_FLAG_MBUTTON }

/-- Move to `(3, 4)` with the middle button held (fresh-adapter pan witness). -/
def moveMid3 : MouseEvent :=
  { renderSize := (640, 480), event := EVENT_MOUSEMOVE, x := 3, y := 4,
    flags := EVENT_FLAG_MBUTTON }

/-- GUI state with a live host window `"W"` (handle 0) registered under
object identity 0 (teardown witness). -/
def gsW : GuiState :=
  { host := { nextId := 1, windows := [(0, "W")] }, windowMap := [("W", 0)] }

/-- Host with no live windows. -/
def emptyHost : Host := { nextId := 0, windows := [] }

/-- Key stream reporting no key pressed on any iteration. -/
def keysNone : Nat → Int := fun _ => -1

/-- Constant wall clock. -/
def timesZero : Nat → ℚ := fun _ => 0

/-! ### Helper lemmas about the dispatch pipeline -/

theorem handleEvent_handler (a : MouseAdapter) (m : MouseEvent) :
    (a.handleEvent m).1.mouseEventHandler = a.mouseEventHandler := by
  unfold MouseAdapter.handleEvent
  dsimp only
  split
  · rfl
  · split
    · split
      · rfl
      · split
        · rfl
        · rfl
    · split
      · rfl
      · split
        · rfl
        · rfl

theorem mouseEvent_state (a : MouseAdapter) (m : MouseEvent) :
    (a.mouseEvent m).1 = (a.handleEvent m).1 := by
  unfold MouseAdapter.mouseEvent
  rcases h : (a.handleEvent m).1.mouseEventHandler with _ | f <;> simp [h]

theorem mouseEvent_true (a : MouseAdapter) (m : MouseEvent)
    (hb : (a.handleEvent m).2.2 = true) : (a.mouseEvent m).2.2 = true := by
  unfold MouseAdapter.mouseEvent
  rcases h : (a.handleEvent m).1.mouseEventHandler with _ | f <;> simp [h, hb]

theorem mouseEvent_mem (a : MouseAdapter) (m : MouseEvent) (c : TraceCall)
    (hc : c ∈ (a.handleEvent m).2.1) : c ∈ (a.mouseEvent m).2.1 := by
  unfold MouseAdapter.mouseEvent
  rcases h : (a.handleEvent m).1.mouseEventHandler with _ | f <;> simp [h, hc]

theorem mouseEvent_no_handler (a : MouseAdapter) (m : MouseEvent)
    (h : a.mouseEventHandler = none) : a.mouseEvent m = a.handleEvent m := by
  have hp := handleEvent_handler a m
  have h2 : (a.handleEvent m).1.mouseEventHandler = none := by rw [hp, h]
  simp only [MouseAdapter.mouseEvent, h2]

theorem mouseEvent_filter_isZoom (a : MouseAdapter) (m : MouseEvent) :
    (a.mouseEvent m).2.1.filter TraceCall.isZoom
      = (a.handleEvent m).2.1.filter TraceCall.isZoom := by
  unfold MouseAdapter.mouseEvent
  rcases h : (a.handleEvent m).1.mouseEventHandler with _ | f <;>
    simp [h, TraceCall.isZoom]

theorem handleEvent_buttonDown_eq (a : MouseAdapter) (m : MouseEvent)
    (he : m.event = EVENT_MBUTTONDOWN ∨ m.event = EVENT_RBUTTONDOWN) :
    a.handleEvent m
      = ({ a with pressPosPix := m.outerPoint, lastPosPix := m.outerPoint }, [], true) := by
  unfold MouseAdapter.handleEvent
  rcases he with he | he <;> rw [he] <;> simp

theorem handleEvent_move_pan_eq (a : MouseAdapter) (m : MouseEvent)
    (he : m.event = EVENT_MOUSEMOVE)
    (hm : Int.land m.flags EVENT_FLAG_MBUTTON ≠ 0) :
    a.handleEvent m
      = ({ a with lastPosPix := m.outerPoint },
         [TraceCall.pan m.renderSize (m.x - a.lastPosPix.1, m.y - a.lastPosPix.2)],
         true) := by
  unfold MouseAdapter.handleEvent
  rw [he]
  simp [EVENT_MOUSEMOVE, EVENT_MBUTTONDOWN, EVENT_RBUTTONDOWN, hm, MouseEvent.outerPoint]

theorem handleEvent_move_zoom_eq (a : MouseAdapter) (m : MouseEvent)
    (he : m.event = EVENT_MOUSEMOVE)
    (hr : Int.land m.flags EVENT_FLAG_RBUTTON ≠ 0)
    (hm : Int.land m.flags EVENT_FLAG_MBUTTON = 0) :
    a.handleEvent m
      = ({ a with lastPosPix := m.outerPoint },
         [TraceCall.zoom m.renderSize a.pressPosPix
            ((2 : ℝ) ^ (-((m.x - a.lastPosPix.1 : Int) : ℝ) / 100))
            ((2 : ℝ) ^ (((m.y - a.lastPosPix.2 : Int) : ℝ) / 100))],
         true) := by
  unfold MouseAdapter.handleEvent
  rw [he]
  simp [EVENT_MOUSEMOVE, EVENT_MBUTTONDOWN, EVENT_RBUTTONDOWN, hr, hm, MouseEvent.outerPoint]

theorem handleEvent_move_none_eq (a : MouseAdapter) (m : MouseEvent)
    (he : m.event = EVENT_MOUSEMOVE)
    (hm : Int.land m.flags EVENT_FLAG_MBUTTON = 0)
    (hr : Int.land m.flags EVENT_FLAG_RBUTTON = 0) :
    a.handleEvent m = (a, [], false) := by
  unfold MouseAdapter.handleEvent
  rw [he]
  simp [EVENT_MOUSEMOVE, EVENT_MBUTTONDOWN, EVENT_RBUTTONDOWN, hr, hm]

theorem handleEvent_wheel_eq (a : MouseAdapter) (m : MouseEvent)
    (he : m.event = EVENT_MOUSEWHEEL) :
    a.handleEvent m
      = (a, [TraceCall.zoom m.renderSize m.outerPoint
               ((1.2 : ℝ) ^ (-(Int.fdiv m.flags 120 : ℝ)))
               ((1.2 : ℝ) ^ (-(Int.fdiv m.flags 120 : ℝ)))],
         true) := by
  unfold MouseAdapter.handleEvent
  rw [he]
  norm_num [EVENT_MOUSEMOVE, EVENT_MBUTTONDOWN, EVENT_RBUTTONDOWN, EVENT_RBUTTONDBLCLK,
    EVENT_MOUSEWHEEL]

/-! ### Claims about the InteractionController (MouseAdapter) -/

/-- C1: for every event and adapter state, dispatch (`MouseAdapter.mouseEvent`)
runs the built-in handler first and then, when a user handler is set, always
runs the user handler too — its invocation is recorded after the built-in
calls even when the built-in handler returned true — and returns the logical
OR of the two results; with no user handler it returns exactly the built-in
result and makes no user-handler invocation. -/
theorem claim1_dispatch_user_handler_or (a : MouseAdapter) (m : MouseEvent) :
    (∀ f, a.mouseEventHandler = some f →
      (a.mouseEvent m).2.1 = (a.handleEvent m).2.1 ++ [TraceCall.userHandler m (f m)] ∧
      (a.mouseEvent m).2.2 = ((a.handleEvent m).2.2 || f m)) ∧
    (a.mouseEventHandler = none →
      (a.mouseEvent m).2.1 = (a.handleEvent m).2.1 ∧
      (a.mouseEvent m).2.2 = (a.handleEvent m).2.2) := by
  have hp := handleEvent_handler a m
  constructor
  · intro f hf
    have h2 : (a.handleEvent m).1.mouseEventHandler = some f := by rw [hp, hf]
    simp only [MouseAdapter.mouseEvent, h2]
    exact ⟨trivial, trivial⟩
  · intro hf
    have h2 : (a.handleEvent m).1.mouseEventHandler = none := by rw [hp, hf]
    simp only [MouseAdapter.mouseEvent, h2]
    exact ⟨trivial, trivial⟩

/-- Witness for C1: a wheel event on which the built-in handler already
returns true still reaches the installed user handler, and the dispatch
result is the OR of the two results. -/
theorem claim1_witness :
    ((adapterWithHandler.mouseEvent wheelEvent120).2.1
      = (adapterWithHandler.handleEvent wheelEvent120).2.1
        ++ [TraceCall.userHandler wheelEvent120 (handlerTrue wheelEvent120)] ∧
    (adapterWithHandler.mouseEvent wheelEvent120).2.2
      = ((adapterWithHandler.handleEvent wheelEvent120).2.2 || handlerTrue wheelEvent120)) ∧
    (adapterWithHandler.handleEvent wheelEvent120).2.2 = true :=
  ⟨(claim1_dispatch_user_handler_or adapterWithHandler wheelEvent120).1 handlerTrue rfl,
   by rw [handleEvent_wheel_eq adapterWithHandler wheelEvent120 rfl]⟩

/-- C2: a Move event with the right-button flag set and the middle-button
flag clear makes exactly one built-in surface call, a zoom with
`scaleX = 2 ^ (-delta.x / 100)` and `scaleY = 2 ^ (delta.y / 100)` for
`delta = outerPoint - lastPosPix(before)`, anchored at `pressPosPix`; that
zoom also appears in the dispatch trace, `lastPosPix` is updated to the
outer point, and dispatch reports true. -/
theorem claim2_move_right_zoom (a : MouseAdapter) (m : MouseEvent)
    (he : m.event = EVENT_MOUSEMOVE)
    (hr : Int.land m.flags EVENT_FLAG_RBUTTON ≠ 0)
    (hm : Int.land m.flags EVENT_FLAG_MBUTTON = 0) :
    (a.handleEvent m).2.1
      = [TraceCall.zoom m.renderSize a.pressPosPix
          ((2 : ℝ) ^ (-((m.x - a.lastPosPix.1 : Int) : ℝ) / 100))
          ((2 : ℝ) ^ (((m.y - a.lastPosPix.2 : Int) : ℝ) / 100))] ∧
    TraceCall.zoom m.renderSize a.pressPosPix
          ((2 : ℝ) ^ (-((m.x - a.lastPosPix.1 : Int) : ℝ) / 100))
          ((2 : ℝ) ^ (((m.y - a.lastPosPix.2 : Int) : ℝ) / 100))
        ∈ (a.mouseEvent m).2.1 ∧
    (a.mouseEvent m).1.lastPosPix = m.outerPoint ∧
    (a.mouseEvent m).2.2 = true := by
  have h := handleEvent_move_zoom_eq a m he hr hm
  refine ⟨by rw [h], ?_, ?_, ?_⟩
  · exact mouseEvent_mem a m _ (by rw [h]; exact List.mem_singleton_self _)
  · rw [mouseEvent_state, h]
  · exact mouseEvent_true a m (by rw [h])

theorem adapterAfterPress_eq :
    adapterAfterPress
      = { pressPosPix := (200, 150), lastPosPix := (200, 150),
          mouseEventHandler := none } := by
  unfold adapterAfterPress
  rw [mouseEvent_state, handleEvent_buttonDown_eq MouseAdapter.init btnDownR200 (Or.inr rfl)]
  rfl

/-- Witness for C2, the spec scenario: right-button press at `(200, 150)`
then move to `(150, 150)` with the right button held gives `delta = (-50, 0)`,
a zoom anchored at `(200, 150)` with `scaleX = 2 ^ (1/2)` and `scaleY = 1`,
an updated last position, and a true dispatch result. -/
theorem claim2_witness :
    (adapterAfterPress.handleEvent moveR150).2.1
      = [TraceCall.zoom (640, 480) (200, 150) ((2 : ℝ) ^ ((1 : ℝ) / 2)) 1] ∧
    (adapterAfterPress.mouseEvent moveR150).1.lastPosPix = (150, 150) ∧
    (adapterAfterPress.mouseEvent moveR150).2.2 = true := by
  have h := claim2_move_right_zoom adapterAfterPress moveR150 rfl (by decide) (by decide)
  have hp : adapterAfterPress.pressPosPix = (200, 150) := by rw [adapterAfterPress_eq]
  have hl : adapterAfterPress.lastPosPix = (200, 150) := by rw [adapterAfterPress_eq]
  refine ⟨?_, h.2.2.1, h.2.2.2⟩
  rw [h.1, hp, hl]
  norm_num [moveR150]

/-- C3: a Move event with the middle-button flag set makes exactly one
built-in surface call, `pan` with `delta = outerPoint - lastPosPix(before)`;
that pan also appears in the dispatch trace, `lastPosPix` is updated to the
outer point, and dispatch reports true. -/
theorem claim3_move_middle_pan (a : MouseAdapter) (m : MouseEvent)
    (he : m.event = EVENT_MOUSEMOVE)
    (hm : Int.land m.flags EVENT_FLAG_MBUTTON ≠ 0) :
    (a.handleEvent m).2.1
      = [TraceCall.pan m.renderSize (m.x - a.lastPosPix.1, m.y - a.lastPosPix.2)] ∧
    TraceCall.pan m.renderSize (m.x - a.lastPosPix.1, m.y - a.lastPosPix.2)
        ∈ (a.mouseEvent m).2.1 ∧
    (a.mouseEvent m).1.lastPosPix = m.outerPoint ∧
    (a.mouseEvent m).2.2 = true := by
  have h := handleEvent_move_pan_eq a m he hm
  refine ⟨by rw [h], ?_, ?_, ?_⟩
  · exact mouseEvent_mem a m _ (by rw [h]; exact List.mem_singleton_self _)
  · rw [mouseEvent_state, h]
  · exact mouseEvent_true a m (by rw [h])

/-- Witness for C3: from last position `(10, 10)`, a middle-drag move to
`(30, 40)` pans by `(20, 30)`, updates the last position and reports true. -/
theorem claim3_witness :
    (adapterAt10.handleEvent moveMid30).2.1 = [TraceCall.pan (640, 480) (20, 30)] ∧
    (adapterAt10.mouseEvent moveMid30).1.lastPosPix = (30, 40) ∧
    (adapterAt10.mouseEvent moveMid30).2.2 = true := by
  have h := claim3_move_middle_pan adapterAt10 moveMid30 rfl (by decide)
  exact ⟨by rw [h.1]; rfl, h.2.2.1, h.2.2.2⟩

/-- C4: a wheel event whose flag word encodes `d` notches (`flags = 120 * d`,
decoded by the floor division `flags // 120`) makes exactly one zoom call in
the whole dispatch trace, with `scaleX = scaleY = 1.2 ^ (-d)` anchored at the
event's outer point, and dispatch reports true. -/
theorem claim4_wheel_zoom (a : MouseAdapter) (m : MouseEvent) (d : Int)
    (he : m.event = EVENT_MOUSEWHEEL) (hd : m.flags = 120 * d) :
    (a.mouseEvent m).2.1.filter TraceCall.isZoom
      = [TraceCall.zoom m.renderSize m.outerPoint
          ((1.2 : ℝ) ^ (-(d : ℝ))) ((1.2 : ℝ) ^ (-(d : ℝ)))] ∧
    (a.mouseEvent m).2.2 = true := by
  have hfd : Int.fdiv m.flags 120 = d := by
    rw [hd]; exact Int.mul_fdiv_cancel_left _ (by norm_num)
  have h := handleEvent_wheel_eq a m he
  rw [hfd] at h
  refine ⟨?_, mouseEvent_true a m (by rw [h])⟩
  rw [mouseEvent_filter_isZoom, h]
  simp [TraceCall.isZoom]

/-- Witness for C4: a wheel event with `flags = -240` (two backward notches)
zooms exactly once by `1.2 ^ 2` at the pointer position `(6, 6)`. -/
theorem claim4_witness :
    (MouseAdapter.init.mouseEvent wheelEventNeg240).2.1.filter TraceCall.isZoom
      = [TraceCall.zoom (640, 480) (6, 6)
          ((1.2 : ℝ) ^ (-((-2 : Int) : ℝ))) ((1.2 : ℝ) ^ (-((-2 : Int) : ℝ)))] ∧
    (MouseAdapter.init.mouseEvent wheelEventNeg240).2.2 = true :=
  claim4_wheel_zoom MouseAdapter.init wheelEventNeg240 (-2) rfl (by decide)

/-- Counterexample to C5 as stated: a Move event with no button flags set
leaves `lastPosPix` unchanged, so after dispatching a move to `(5, 5)` to a
fresh adapter `lastPosPix` is `(0, 0)`, not the event's outer point. -/
theorem claim5_counterexample :
    ¬((MouseAdapter.init.mouseEvent moveNone5).1.lastPosPix = moveNone5.outerPoint) := by
  rw [mouseEvent_state,
    handleEvent_move_none_eq MouseAdapter.init moveNone5 rfl (by decide) (by decide)]
  decide

/-- C5 (amended): after a Move event with the middle- or right-button flag
set, `lastPosPix` equals the event's outer point; after a Move event with
neither flag set the adapter state — `lastPosPix` included — is unchanged. -/
theorem claim5_last_position_amended (a : MouseAdapter) (m : MouseEvent)
    (he : m.event = EVENT_MOUSEMOVE) :
    ((Int.land m.flags EVENT_FLAG_MBUTTON ≠ 0 ∨ Int.land m.flags EVENT_FLAG_RBUTTON ≠ 0) →
      (a.mouseEvent m).1.lastPosPix = m.outerPoint) ∧
    ((Int.land m.flags EVENT_FLAG_MBUTTON = 0 ∧ Int.land m.flags EVENT_FLAG_RBUTTON = 0) →
      (a.mouseEvent m).1 = a) := by
  constructor
  · intro hf
    by_cases hm : Int.land m.flags EVENT_FLAG_MBUTTON = 0
    · rcases hf with hm' | hr
      · exact absurd hm hm'
      · rw [mouseEvent_state, handleEvent_move_zoom_eq a m he hr hm]
    · rw [mouseEvent_state, handleEvent_move_pan_eq a m he hm]
  · intro hf
    rw [mouseEvent_state, handleEvent_move_none_eq a m he hf.1 hf.2]

/-- Witness for the amended C5: a middle-drag move updates `lastPosPix` to
the outer point, and a flagless move leaves the adapter state unchanged. -/
theorem claim5_witness :
    (MouseAdapter.init.mouseEvent moveMid9).1.lastPosPix = moveMid9.outerPoint ∧
    (MouseAdapter.init.mouseEvent moveNone5).1 = MouseAdapter.init :=
  ⟨(claim5_last_position_amended MouseAdapter.init moveMid9 rfl).1 (Or.inl (by decide)),
   (claim5_last_position_amended MouseAdapter.init moveNone5 rfl).2 ⟨by decide, by decide⟩⟩

/-- C10: a freshly constructed adapter has `pressPosPix = lastPosPix = (0, 0)`
and no user handler, so a middle-drag Move dispatched before any button-down
pans by the event's raw outer coordinates and reports true. -/
theorem claim10_initial_state :
    MouseAdapter.init.pressPosPix = (0, 0) ∧
    MouseAdapter.init.lastPosPix = (0, 0) ∧
    MouseAdapter.init.mouseEventHandler = none ∧
    ∀ m : MouseEvent, m.event = EVENT_MOUSEMOVE →
      Int.land m.flags EVENT_FLAG_MBUTTON ≠ 0 →
      (MouseAdapter.init.mouseEvent m).2.1 = [TraceCall.pan m.renderSize (m.x, m.y)] ∧
      (MouseAdapter.init.mouseEvent m).2.2 = true := by
  refine ⟨rfl, rfl, rfl, ?_⟩
  intro m he hm
  rw [mouseEvent_no_handler _ m rfl, handleEvent_move_pan_eq _ m he hm]
  refine ⟨?_, rfl⟩
  norm_num [MouseAdapter.init]

/-- Witness for C10: a first-ever middle-drag move to `(3, 4)` pans by
exactly `(3, 4)`. -/
theorem claim10_witness :
    (MouseAdapter.init.mouseEvent moveMid3).2.1 = [TraceCall.pan (640, 480) (3, 4)] ∧
    (MouseAdapter.init.mouseEvent moveMid3).2.2 = true :=
  claim10_initial_state.2.2.2 moveMid3 rfl (by decide)

/-! ### Helper lemmas about the window lifecycle model -/

theorem valid_eq_hasWindow (h : Host) (name : String) :
    Window.valid ⟨name⟩ h = h.hasWindow name := by
  by_cases hw : h.hasWindow name <;>
    simp [Window.valid, Host.getWindowProperty, validResult, hw]

theorem destroyWindow_hasWindow (h : Host) (name : String) :
    (h.destroyWindow name).hasWindow name = false := by
  simp [Host.destroyWindow, Host.hasWindow, List.any_eq_true, List.mem_filter]

theorem destroyWindow_nextId (h : Host) (name : String) :
    (h.destroyWindow name).nextId = h.nextId := rfl

theorem windowInit_host (gs : GuiState) (objId : Nat) (name : String) :
    (windowInit gs objId name).host
      = { nextId := gs.host.nextId + 1,
          windows := (gs.host.nextId, name) ::
            (gs.host.windows.filter (fun w => w.2 ≠ name)) } := by
  unfold windowInit
  dsimp only
  rw [valid_eq_hasWindow]
  by_cases hw : gs.host.hasWindow name = true
  · rw [if_pos hw]
    unfold Host.namedWindow
    rw [if_neg (by rw [destroyWindow_hasWindow]; simp)]
    simp [Host.destroyWindow]
  · rw [if_neg hw]
    unfold Host.namedWindow
    rw [if_neg hw]
    have hf : gs.host.windows.filter (fun w => w.2 ≠ name) = gs.host.windows := by
      apply List.filter_eq_self.mpr
      intro a ha
      simp only [Host.hasWindow, List.any_eq_true] at hw
      push_neg at hw
      simpa using hw a ha
    rw [hf]

theorem dictGet_dictSet (m : List (String × Nat)) (k : String) (v : Nat) :
    dictGet (dictSet m k v) k = some v := by
  simp [dictGet, dictSet]

theorem filter_dictSet (m : List (String × Nat)) (k : String) (v : Nat) :
    (dictSet m k v).filter (fun p => p.1 = k) = [(k, v)] := by
  simp only [dictSet, List.filter_cons]
  rw [if_pos (by simp)]
  rw [List.filter_filter]
  rw [show List.filter (fun a => decide (a.1 = k) && decide (a.1 ≠ k)) m = [] from ?_]
  · apply List.filter_eq_nil_iff.mpr
    intro a ha
    by_cases h : a.1 = k <;> simp [h]

theorem dictGet_dictDel (m : List (String × Nat)) (k : String) :
    dictGet (dictDel m k) k = none := by
  have hf : (List.filter (fun p => decide (p.1 ≠ k)) m).find? (fun p => decide (p.1 = k))
      = none := by
    apply List.find?_eq_none.mpr
    intro x hx
    have := (List.mem_filter.mp hx).2
    simpa using this
  simp [dictGet, dictDel, hf]

theorem delRegistryPhase_lookup (gs : GuiState) (name : String) :
    callbackLookup (delRegistryPhase gs name).1 name = none := by
  unfold delRegistryPhase callbackLookup
  by_cases h : (dictGet gs.windowMap name).isSome
  · rw [if_pos h]
    exact dictGet_dictDel _ _
  · rw [if_neg h]
    exact Option.not_isSome_iff_eq_none.mp h

theorem windowDel_steps (gs : GuiState) (name : String) :
    (windowDel gs name).2 = [] ∨
    (windowDel gs name).2 = [TeardownStep.removeRegistry name] ∨
    (windowDel gs name).2 = [TeardownStep.destroyHost name] ∨
    (windowDel gs name).2
      = [TeardownStep.removeRegistry name, TeardownStep.destroyHost name] := by
  unfold windowDel delRegistryPhase delDestroyPhase
  by_cases h1 : (dictGet gs.windowMap name).isSome <;>
    [rw [if_pos h1]; rw [if_neg h1]] <;>
    dsimp only <;>
    split <;> simp

/-! ### Claims about the Window lifecycle, teardown, wait loop and liveness -/

/-- C6: constructing a window under a name that is already in use replaces
the previous one — after two constructions under `name`, the registry maps
`name` to exactly one window object, the newly constructed one; the host
window created by the first construction has been destroyed and a fresh
host window for the second construction is live. -/
theorem claim6_replace_semantics (gs : GuiState) (name : String) (id1 id2 : Nat) :
    dictGet (windowInit (windowInit gs id1 name) id2 name).windowMap name = some id2 ∧
    ((windowInit (windowInit gs id1 name) id2 name).windowMap.filter
        (fun p => p.1 = name)).length = 1 ∧
    (gs.host.nextId, name) ∈ (windowInit gs id1 name).host.windows ∧
    (gs.host.nextId, name) ∉ (windowInit (windowInit gs id1 name) id2 name).host.windows ∧
    (gs.host.nextId + 1, name) ∈ (windowInit (windowInit gs id1 name) id2 name).host.windows := by
  have h1 := windowInit_host gs id1 name
  have h2 := windowInit_host (windowInit gs id1 name) id2 name
  have hn : (windowInit gs id1 name).host.nextId = gs.host.nextId + 1 := by rw [h1]
  refine ⟨?_, ?_, ?_, ?_, ?_⟩
  · exact dictGet_dictSet _ _ _
  · rw [show (windowInit (windowInit gs id1 name) id2 name).windowMap
        = dictSet (windowInit gs id1 name).windowMap name id2 from rfl,
      filter_dictSet]
    rfl
  · rw [h1]
    exact List.mem_cons_self _ _
  · rw [h2, hn]
    intro hmem
    rcases List.mem_cons.mp hmem with h | h
    · have := (Prod.mk.injEq _ _ _ _).mp h
      omega
    · have := (List.mem_filter.mp h).2
      simp at this
  · rw [h2, hn]
    exact List.mem_cons_self _ _

/-- C7: in `Window.__del__` every registry-removal step precedes every
host-destroy step, the state in which the host-destroy phase runs already
resolves the name to nothing (so a callback firing during teardown finds no
window), and after teardown the registry entry is gone. -/
theorem claim7_teardown_ordering (gs : GuiState) (name : String) :
    (∀ i j : Nat,
      (windowDel gs name).2[i]? = some (TeardownStep.removeRegistry name) →
      (windowDel gs name).2[j]? = some (TeardownStep.destroyHost name) → i < j) ∧
    callbackLookup (delRegistryPhase gs name).1 name = none ∧
    callbackLookup (windowDel gs name).1 name = none ∧
    (windowDel gs name).1 = (delDestroyPhase (delRegistryPhase gs name).1 name).1 := by
  have hlk := delRegistryPhase_lookup gs name
  have hdel : (windowDel gs name).1 = (delDestroyPhase (delRegistryPhase gs name).1 name).1 :=
    rfl
  have hmap : (delDestroyPhase (delRegistryPhase gs name).1 name).1.windowMap
      = (delRegistryPhase gs name).1.windowMap := by
    unfold delDestroyPhase
    split <;> rfl
  refine ⟨?_, hlk, ?_, hdel⟩
  · intro i j hri hrj
    rcases windowDel_steps gs name with hs | hs | hs | hs <;> rw [hs] at hri hrj
    · rcases i with _ | i <;> simp at hri
    · rcases j with _ | _ | j <;> simp at hrj
    · rcases i with _ | _ | i <;> simp at hri
    · rcases i with _ | _ | i <;> rcases j with _ | _ | j <;> simp_all
  · rw [hdel]
    unfold callbackLookup
    rw [hmap]
    exact hlk

/-- Witness for C7: tearing down the registered live window `"W"` performs
the registry removal at step 0 and the host destroy at step 1, and after
the removal the callback lookup for `"W"` finds nothing. -/
theorem claim7_witness :
    (0 : Nat) < 1 ∧ callbackLookup (delRegistryPhase gsW "W").1 "W" = none :=
  ⟨(claim7_teardown_ordering gsW "W").1 0 1 (by decide) (by decide),
   (claim7_teardown_ordering gsW "W").2.1⟩

/-- C8: with an empty window list and zero delay, `waitKey` returns `-1` on
the first loop iteration (one unit of fuel suffices) provided the host key
poll reports no key: the zero delay disables the timeout branch, and the
all-windows-closed test is vacuously true of the empty list. -/
theorem claim8_waitkey_empty (host : Host) (keys : Nat → Int) (times : Nat → ℚ)
    (startTime : ℚ) (fuel : Nat) (hk : keys 0 = -1) :
    waitKeyStatic host [] 0 keys times startTime (fuel + 1) = some (-1) := by
  unfold waitKeyStatic waitKeyLoop
  simp [hk]

/-- Witness for C8: with no key ever pressed, `waitKey([], 0)` yields `-1`
within a single iteration. -/
theorem claim8_witness :
    keysNone 0 = -1 ∧ waitKeyStatic emptyHost [] 0 keysNone timesZero 0 1 = some (-1) :=
  ⟨rfl, claim8_waitkey_empty emptyHost keysNone timesZero 0 0 rfl⟩

/-- C9: `Window.valid` never propagates a fault from the host liveness
query: an erroring query yields `false` ("not alive"), a successful query
yields whether the reported property value is non-negative, and `valid` is
exactly this handling applied to the host query for the window's name. -/
theorem claim9_valid_catches :
    (∀ e : Unit, validResult (Except.error e) = false) ∧
    (∀ v : Int, validResult (Except.ok v) = decide (0 ≤ v)) ∧
    (∀ (host : Host) (w : Window),
      w.valid host = validResult (host.getWindowProperty w.windowName)) :=
  ⟨fun _ => rfl, fun _ => rfl, fun _ _ => rfl⟩

end CvPlot
